import Mathlib

/-
  Verification development for the MySQL pool manager of
  `src/libs/mysql.js` (pool lifecycle, transactions, query logging,
  and parameter sanitization).  All definitions below are shallow
  embeddings of the JavaScript source; external effects (driver calls,
  the wall clock) are modelled by explicit environment records that
  say which step succeeds, and the emitted log entries and connection
  operations are collected in an event trace.
-/

namespace Mysql

/-- JavaScript-like runtime values, used for query parameters. -/
inductive JsValue where
  | vNull
  | vUndefined
  | vBool (b : Bool)
  | vNum (n : Int)
  | vStr (s : String)
  | vArr (elems : List JsValue)
  | vObj (fields : List (String × JsValue))

/-- JavaScript truthiness: `!params` in the source. -/
def isFalsy : JsValue → Bool
  | .vNull => true
  | .vUndefined => true
  | .vBool b => !b
  | .vNum n => n == 0
  | .vStr s => s.isEmpty
  | _ => false

/-- The truncation marker appended by the source: `'... [truncado]'`. -/
def truncMarker : String := "... [truncado]"

/-- `s.substring(0, limit) + '... [truncado]'` when `s.length > limit`, else `s`. -/
def truncateStr (limit : Nat) (s : String) : String :=
  if s.length > limit then String.mk (s.data.take limit) ++ truncMarker else s

/-- `sanitizeSql` from the source: truncate statements longer than 1000 units. -/
def sanitizeSql (sql : String) : String := truncateStr 1000 sql

/-- The fixed sensitive-field list of `sanitizeParams`. -/
def sensitiveFields : List String := ["password", "token", "secret", "credit_card", "card_number"]

/-- The per-element map applied to array parameters by `sanitizeParams`. -/
def sanitizeItem (item : JsValue) : JsValue :=
  match item with
  | .vStr s => .vStr (truncateStr 100 s)
  | v => v

/-- First object pass of `sanitizeParams`: mask entries with a sensitive key. -/
def maskEntry (kv : String × JsValue) : String × JsValue :=
  if sensitiveFields.contains kv.1 then (kv.1, .vStr "********") else kv

/-- Second object pass of `sanitizeParams`: truncate long string values. -/
def truncEntry (kv : String × JsValue) : String × JsValue :=
  match kv.2 with
  | .vStr s => (kv.1, .vStr (truncateStr 100 s))
  | _ => kv

/-- `sanitizeParams` from the source: falsy inputs become null; arrays map
`sanitizeItem` over their elements; objects are shallow-copied, sensitive
keys masked, then long string values truncated; everything else passes
through unchanged. -/
def sanitizeParams (params : JsValue) : JsValue :=
  if isFalsy params then .vNull
  else
    match params with
    | .vArr elems => .vArr (elems.map sanitizeItem)
    | .vObj fields => .vObj ((fields.map maskEntry).map truncEntry)
    | v => v

/-- Spec-side description of the object case of sanitizeParams, written from
the spec's words: a sensitive key's value is replaced by the fixed mask
regardless of original value; a remaining string value longer than 100 units
is truncated with the marker; other entries are unchanged. -/
def specSanitizeEntry (kv : String × JsValue) : String × JsValue :=
  if sensitiveFields.contains kv.1 then (kv.1, .vStr "********")
  else
    match kv.2 with
    | .vStr s =>
        (kv.1, if s.length > 100 then .vStr (String.mk (s.data.take 100) ++ truncMarker) else .vStr s)
    | _ => kv

/-- A string value is the fixed mask. -/
def isMasked : JsValue → Bool
  | .vStr s => s == "********"
  | _ => false

/-- An object entry that still carries a raw (unmasked) value under a
sensitive key. -/
def entryHasRawSensitive (kv : String × JsValue) : Bool :=
  sensitiveFields.contains kv.1 && !(isMasked kv.2)

/-- A string value within the 100-unit limit plus the 14-unit marker. -/
def strLenOk (v : JsValue) : Bool :=
  match v with
  | .vStr s => decide (s.length ≤ 114)
  | _ => true

/-- Top-level safety of one object entry: sensitive keys are masked and
string values stay within the truncation bound. -/
def topEntryOk (kv : String × JsValue) : Bool :=
  (!(sensitiveFields.contains kv.1) || isMasked kv.2) && strLenOk kv.2

/-- A 150-character string, used as a concrete oversized value. -/
def longA : String := String.mk (List.replicate 150 'a')

theorem length_mk (l : List Char) : (String.mk l).length = l.length := rfl

theorem length_data (s : String) : s.data.length = s.length := rfl

/-- The truncated form never exceeds the limit plus the marker length. -/
theorem truncateStr_length_le (limit : Nat) (s : String) :
    (truncateStr limit s).length ≤ limit + truncMarker.length := by
  unfold truncateStr
  split
  · rw [String.length_append, length_mk]
    have h1 : (s.data.take limit).length ≤ limit := by
      simp [List.length_take]
    omega
  · rename_i h
    omega

/-- Truncation is idempotent: re-truncating a truncated string is a no-op. -/
theorem truncateStr_idem (limit : Nat) (s : String) :
    truncateStr limit (truncateStr limit s) = truncateStr limit s := by
  by_cases h : s.length > limit
  · have htake : (s.data.take limit).length = limit := by
      rw [List.length_take]
      have hd : limit ≤ s.data.length := by rw [length_data]; omega
      omega
    have ht : truncateStr limit s = String.mk (s.data.take limit) ++ truncMarker := by
      simp [truncateStr, h]
    rw [ht]
    have hgt : (String.mk (s.data.take limit) ++ truncMarker).length > limit := by
      rw [String.length_append, length_mk, htake]
      have hm : truncMarker.length = 14 := rfl
      omega
    have hdata : (String.mk (s.data.take limit) ++ truncMarker).data.take limit
        = s.data.take limit := by
      rw [String.data_append]
      show (s.data.take limit ++ truncMarker.data).take limit = s.data.take limit
      exact List.take_left' htake
    show (if (String.mk (s.data.take limit) ++ truncMarker).length > limit
        then String.mk ((String.mk (s.data.take limit) ++ truncMarker).data.take limit) ++ truncMarker
        else String.mk (s.data.take limit) ++ truncMarker)
      = String.mk (s.data.take limit) ++ truncMarker
    rw [if_pos hgt, hdata]
  · simp [truncateStr, h]

theorem sanitizeParams_vArr (xs : List JsValue) :
    sanitizeParams (JsValue.vArr xs) = JsValue.vArr (xs.map sanitizeItem) := rfl

theorem sanitizeParams_vObj (fs : List (String × JsValue)) :
    sanitizeParams (JsValue.vObj fs) = JsValue.vObj ((fs.map maskEntry).map truncEntry) := rfl

theorem sanitizeItem_idem (v : JsValue) : sanitizeItem (sanitizeItem v) = sanitizeItem v := by
  cases v <;> simp [sanitizeItem, truncateStr_idem]

theorem truncEntry_idem (kv : String × JsValue) : truncEntry (truncEntry kv) = truncEntry kv := by
  obtain ⟨k, v⟩ := kv
  cases v <;> simp [truncEntry, truncateStr_idem]

/-- One object entry is stable under a second mask-then-truncate pass. -/
theorem entry_idem (kv : String × JsValue) :
    truncEntry (maskEntry (truncEntry (maskEntry kv))) = truncEntry (maskEntry kv) := by
  obtain ⟨k, v⟩ := kv
  by_cases hk : k ∈ sensitiveFields
  · have h1 : maskEntry (k, v) = (k, JsValue.vStr "********") := by
      simp [maskEntry, hk]
    have h2 : truncEntry (k, JsValue.vStr "********") = (k, JsValue.vStr "********") := rfl
    have h3 : maskEntry (k, JsValue.vStr "********") = (k, JsValue.vStr "********") := by
      simp [maskEntry, hk]
    rw [h1, h2, h3, h2]
  · cases v <;> simp [maskEntry, truncEntry, hk, truncateStr_idem]

theorem map_sanitizeItem_idem (xs : List JsValue) :
    (xs.map sanitizeItem).map sanitizeItem = xs.map sanitizeItem := by
  induction xs with
  | nil => rfl
  | cons a t ih => simp [List.map_cons, sanitizeItem_idem, ih]

theorem sanitizeObj_idem (fs : List (String × JsValue)) :
    ((((fs.map maskEntry).map truncEntry).map maskEntry).map truncEntry)
      = (fs.map maskEntry).map truncEntry := by
  induction fs with
  | nil => rfl
  | cons a t ih =>
      simp only [List.map_cons]
      rw [entry_idem a, ih]

/-- Each mask-then-truncate object entry agrees with the spec's description. -/
theorem maskTrunc_eq_spec (kv : String × JsValue) :
    truncEntry (maskEntry kv) = specSanitizeEntry kv := by
  obtain ⟨k, v⟩ := kv
  by_cases hk : k ∈ sensitiveFields
  · have h1 : maskEntry (k, v) = (k, JsValue.vStr "********") := by
      simp [maskEntry, hk]
    have h2 : truncEntry (k, JsValue.vStr "********") = (k, JsValue.vStr "********") := rfl
    rw [h1, h2]
    simp [specSanitizeEntry, hk]
  · have h1 : maskEntry (k, v) = (k, v) := by simp [maskEntry, hk]
    rw [h1]
    cases v with
    | vStr s =>
        have h2 : specSanitizeEntry (k, JsValue.vStr s) =
            (k, if s.length > 100 then JsValue.vStr (String.mk (s.data.take 100) ++ truncMarker)
                else JsValue.vStr s) := by
          simp [specSanitizeEntry, hk]
        rw [h2]
        by_cases hs : s.length > 100 <;> simp [truncEntry, truncateStr, hs]
    | vNull => simp [truncEntry, specSanitizeEntry, hk]
    | vUndefined => simp [truncEntry, specSanitizeEntry, hk]
    | vBool b => simp [truncEntry, specSanitizeEntry, hk]
    | vNum n => simp [truncEntry, specSanitizeEntry, hk]
    | vArr xs => simp [truncEntry, specSanitizeEntry, hk]
    | vObj gs => simp [truncEntry, specSanitizeEntry, hk]

theorem sanitizeObj_eq_spec (fs : List (String × JsValue)) :
    (fs.map maskEntry).map truncEntry = fs.map specSanitizeEntry := by
  induction fs with
  | nil => rfl
  | cons a t ih => simp [List.map_cons, ih, maskTrunc_eq_spec a]

theorem strLenOk_sanitizeItem (v : JsValue) : strLenOk (sanitizeItem v) = true := by
  cases v with
  | vStr s =>
      have h := truncateStr_length_le 100 s
      have hm : truncMarker.length = 14 := rfl
      rw [hm] at h
      simp [sanitizeItem, strLenOk]
      omega
  | vNull => rfl
  | vUndefined => rfl
  | vBool b => rfl
  | vNum n => rfl
  | vArr xs => rfl
  | vObj fs => rfl

/-- Every mask-then-truncate object entry is top-level safe. -/
theorem topEntryOk_maskTrunc (kv : String × JsValue) : topEntryOk (truncEntry (maskEntry kv)) = true := by
  obtain ⟨k, v⟩ := kv
  by_cases hk : k ∈ sensitiveFields
  · have h1 : maskEntry (k, v) = (k, JsValue.vStr "********") := by
      simp [maskEntry, hk]
    have h2 : truncEntry (k, JsValue.vStr "********") = (k, JsValue.vStr "********") := rfl
    rw [h1, h2]
    simp [topEntryOk, isMasked, strLenOk]
    decide
  · have h1 : maskEntry (k, v) = (k, v) := by simp [maskEntry, hk]
    rw [h1]
    cases v with
    | vStr s =>
        have h := truncateStr_length_le 100 s
        have hm : truncMarker.length = 14 := rfl
        rw [hm] at h
        simp [truncEntry, topEntryOk, strLenOk, hk]
        omega
    | vNull => simp [truncEntry, topEntryOk, strLenOk, hk]
    | vUndefined => simp [truncEntry, topEntryOk, strLenOk, hk]
    | vBool b => simp [truncEntry, topEntryOk, strLenOk, hk]
    | vNum n => simp [truncEntry, topEntryOk, strLenOk, hk]
    | vArr xs => simp [truncEntry, topEntryOk, strLenOk, hk]
    | vObj fs => simp [truncEntry, topEntryOk, strLenOk, hk]

/-- Claim C8: sanitizeParams is idempotent (and, being a pure function of its
argument in this embedding, never mutates its input): for every value x,
sanitizeParams (sanitizeParams x) = sanitizeParams x. -/
theorem sanitizeParams_idempotent (x : JsValue) :
    sanitizeParams (sanitizeParams x) = sanitizeParams x := by
  cases x with
  | vNull => rfl
  | vUndefined => rfl
  | vBool b => cases b <;> rfl
  | vNum n =>
      by_cases h : n = 0
      · subst h; rfl
      · have hb : (n == 0) = false := by simpa using h
        simp [sanitizeParams, isFalsy, hb]
  | vStr s =>
      by_cases h : s.isEmpty
      · simp [sanitizeParams, isFalsy, h]
      · have hb : s.isEmpty = false := by simpa using h
        simp [sanitizeParams, isFalsy, hb]
  | vArr xs =>
      rw [sanitizeParams_vArr, sanitizeParams_vArr, map_sanitizeItem_idem]
  | vObj fs =>
      rw [sanitizeParams_vObj, sanitizeParams_vObj, sanitizeObj_idem]

/-- Claim C7: for every keyed mapping, sanitizeParams masks every entry with
a key in the fixed sensitive-field set, truncates every remaining string
value longer than 100 units with the marker, and leaves the other entries
unchanged; in particular the password/note example maps to its masked form. -/
theorem sanitizeParams_mapping_spec :
    (∀ fs : List (String × JsValue),
      sanitizeParams (JsValue.vObj fs) = JsValue.vObj (fs.map specSanitizeEntry)) ∧
    sanitizeParams (JsValue.vObj [("password", JsValue.vStr "secret123"), ("note", JsValue.vStr "hi")])
      = JsValue.vObj [("password", JsValue.vStr "********"), ("note", JsValue.vStr "hi")] := by
  constructor
  · intro fs
    rw [sanitizeParams_vObj, sanitizeObj_eq_spec]
  · rfl

/-- Claim C6 (amended): at the top level of a sanitized sequence or mapping no
sensitive key keeps a raw value and no string exceeds 114 units (the 100-unit
limit plus the 14-unit marker); sanitization is shallow, so values nested one
level down are not covered. -/
theorem sanitizeParams_top_level_safe :
    (∀ xs : List JsValue, ∃ ys, sanitizeParams (JsValue.vArr xs) = JsValue.vArr ys
        ∧ ys.all strLenOk = true) ∧
    (∀ fs : List (String × JsValue), ∃ gs, sanitizeParams (JsValue.vObj fs) = JsValue.vObj gs
        ∧ gs.all topEntryOk = true) := by
  constructor
  · intro xs
    refine ⟨xs.map sanitizeItem, sanitizeParams_vArr xs, ?_⟩
    rw [List.all_eq_true]
    intro v hv
    rw [List.mem_map] at hv
    obtain ⟨a, _, rfl⟩ := hv
    exact strLenOk_sanitizeItem a
  · intro fs
    refine ⟨(fs.map maskEntry).map truncEntry, sanitizeParams_vObj fs, ?_⟩
    rw [List.all_eq_true]
    intro kv hkv
    rw [List.mem_map] at hkv
    obtain ⟨b, hb, rfl⟩ := hkv
    rw [List.mem_map] at hb
    obtain ⟨a, _, rfl⟩ := hb
    exact topEntryOk_maskTrunc a

set_option maxRecDepth 10000 in
/-- Claim C6 (counterexample): a sensitive field nested inside a sequence
element passes through sanitizeParams with its raw value intact, and a
truncated top-level string still measures 114 units, which exceeds the
100-unit threshold. -/
theorem sanitizeParams_nested_counterexample :
    sanitizeParams (JsValue.vArr [JsValue.vObj [("password", JsValue.vStr "secret123")], JsValue.vStr longA])
      = JsValue.vArr [JsValue.vObj [("password", JsValue.vStr "secret123")],
          JsValue.vStr (String.mk (List.replicate 100 'a') ++ truncMarker)]
    ∧ entryHasRawSensitive ("password", JsValue.vStr "secret123") = true
    ∧ (String.mk (List.replicate 100 'a') ++ truncMarker).length = 114 := by
  refine ⟨rfl, rfl, rfl⟩

/-- Error values thrown by the individual driver steps of the pool layer. -/
inductive Err where
  | createFail
  | liveAcquireFail
  | pingFail
  | leaseFail
  | beginFail
  | bodyFail
  | commitFail
  | rollbackFail
  | execFail
deriving DecidableEq

/-- Logger severity levels used by the source. -/
inductive Level where
  | debug
  | info
  | warn
  | error
deriving DecidableEq

/-- A structured log record: severity, message, the `err` field, the
`originalError` field, sanitized sql, sanitized params, row count, duration. -/
structure LogEvent where
  level : Level
  msg : String
  err : Option Err
  originalError : Option Err
  sql : Option String
  params : Option JsValue
  rowCount : Option Nat
  duration : Option Nat

/-- Observable steps of a pool-layer run: connection operations plus the
emitted log entries. -/
inductive Event where
  | create (id : Nat)
  | acquire
  | ping
  | release
  | beginTx
  | commit (ok : Bool)
  | rollback (ok : Bool)
  | body
  | log (e : LogEvent)

/-- A log entry carrying only a level and a message. -/
def plainLog (lvl : Level) (m : String) : LogEvent :=
  ⟨lvl, m, none, none, none, none, none, none⟩

/-- An error-level log entry with the caught error in its `err` field. -/
def errLog (m : String) (e : Err) : LogEvent :=
  ⟨Level.error, m, some e, none, none, none, none, none⟩

/-- The module-level `pool` variable plus a counter used to give each
constructed pool a fresh identity. -/
structure PoolState where
  pool : Option Nat
  nextId : Nat

/-- Which driver steps succeed during `initializePool`. -/
structure InitEnv where
  createOk : Bool
  liveAcquireOk : Bool
  pingOk : Bool

/-- `initializePool` from the source: reuse an existing pool immediately;
otherwise create one, run the liveness check (acquire, ping, release) and
install it; on any failure reset the pool reference to null, log the error,
and rethrow. Note that when `ping` throws, the liveness connection is not
released (the source has no try/finally around lines 42-44). -/
def initializePool (env : InitEnv) (s : PoolState) : PoolState × List Event × Except Err Nat :=
  match s.pool with
  | some p =>
      (s, [Event.log (plainLog Level.debug "Reutilizando pool de conexiones existente")], Except.ok p)
  | none =>
      let l0 := Event.log (plainLog Level.info "Inicializando nuevo pool de conexiones MySQL")
      if env.createOk then
        let pid := s.nextId
        if env.liveAcquireOk then
          if env.pingOk then
            (⟨some pid, pid + 1⟩,
              [l0, Event.create pid, Event.acquire, Event.ping, Event.release,
                Event.log (plainLog Level.info "Pool de conexiones MySQL inicializado correctamente")],
              Except.ok pid)
          else
            (⟨none, pid + 1⟩,
              [l0, Event.create pid, Event.acquire,
                Event.log (errLog "Error al inicializar el pool de conexiones MySQL" Err.pingFail)],
              Except.error Err.pingFail)
        else
          (⟨none, pid + 1⟩,
            [l0, Event.create pid,
              Event.log (errLog "Error al inicializar el pool de conexiones MySQL" Err.liveAcquireFail)],
            Except.error Err.liveAcquireFail)
      else
        (⟨none, s.nextId⟩,
          [l0, Event.log (errLog "Error al inicializar el pool de conexiones MySQL" Err.createFail)],
          Except.error Err.createFail)

/-- Which steps succeed during `getConnection`: pool initialization plus the
lease of one connection from the pool. -/
structure GetEnv where
  init : InitEnv
  leaseOk : Bool

/-- `getConnection` from the source: ensure the pool exists, lease one
connection; on failure log the error and rethrow it. -/
def getConnection (env : GetEnv) (s : PoolState) : PoolState × List Event × Except Err Unit :=
  match initializePool env.init s with
  | (s', tr, Except.error e) =>
      (s', tr ++ [Event.log (errLog "Error al obtener conexión del pool" e)], Except.error e)
  | (s', tr, Except.ok _) =>
      if env.leaseOk then
        (s', tr ++ [Event.acquire], Except.ok ())
      else
        (s', tr ++ [Event.log (errLog "Error al obtener conexión del pool" Err.leaseFail)],
          Except.error Err.leaseFail)

/-- Which steps succeed inside `transaction` once a connection is held. -/
structure TxEnv where
  get : GetEnv
  beginOk : Bool
  bodyOk : Bool
  commitOk : Bool
  rollbackOk : Bool

/-- The catch-block rollback of `transaction`: try to roll back; on success
log a warning with the original error, on failure log an error carrying the
rollback error and the original error's message. -/
def rollbackEvents (rollbackOk : Bool) (orig : Err) (dur : Nat) : List Event :=
  if rollbackOk then
    [Event.rollback true,
      Event.log ⟨Level.warn, "Transacción revertida por error", some orig, none, none, none, none, some dur⟩]
  else
    [Event.rollback false,
      Event.log ⟨Level.error, "Error al revertir transacción", some Err.rollbackFail, some orig,
        none, none, none, some dur⟩]

/-- `transaction` from the source: acquire a connection, begin, run the
callback, commit; on any error after acquisition roll back (logging the
outcome) and rethrow the original error; the finally block releases the
connection whenever one was acquired. -/
def transaction (env : TxEnv) (dur : Nat) (s : PoolState) : PoolState × List Event × Except Err Unit :=
  match getConnection env.get s with
  | (s', tr, Except.error e) => (s', tr, Except.error e)
  | (s', tr, Except.ok _) =>
      if env.beginOk then
        let tr1 := tr ++ [Event.beginTx, Event.log (plainLog Level.debug "Transacción iniciada"),
          Event.body]
        if env.bodyOk then
          if env.commitOk then
            (s', tr1 ++ [Event.commit true,
              Event.log ⟨Level.debug, "Transacción completada exitosamente",
                none, none, none, none, none, some dur⟩,
              Event.release], Except.ok ())
          else
            (s', tr1 ++ [Event.commit false] ++ rollbackEvents env.rollbackOk Err.commitFail dur
              ++ [Event.release], Except.error Err.commitFail)
        else
          (s', tr1 ++ rollbackEvents env.rollbackOk Err.bodyFail dur ++ [Event.release],
            Except.error Err.bodyFail)
      else
        (s', tr ++ rollbackEvents env.rollbackOk Err.beginFail dur ++ [Event.release],
          Except.error Err.beginFail)

/-- Which steps succeed during `query`, and the row count it returns. -/
structure QueryEnv where
  init : InitEnv
  execOk : Bool
  rows : Nat

/-- The success log entry of `query`. -/
def queryOkLog (sql : String) (params : JsValue) (rows dur : Nat) : LogEvent :=
  ⟨Level.debug, "Consulta SQL ejecutada", none, none,
    some (sanitizeSql sql), some (sanitizeParams params), some rows, some dur⟩

/-- The failure log entry of `query`. -/
def queryErrLog (e : Err) (sql : String) (params : JsValue) (dur : Nat) : LogEvent :=
  ⟨Level.error, "Error en consulta SQL", some e, none,
    some (sanitizeSql sql), some (sanitizeParams params), none, some dur⟩

/-- `query` from the source: ensure the pool exists, run the statement, and
log exactly one outcome entry (debug on success, error-level on failure,
both with sanitized sql and params) before returning or rethrowing. -/
def query (env : QueryEnv) (sql : String) (params : JsValue) (dur : Nat) (s : PoolState) :
    PoolState × List Event × Except Err Nat :=
  match initializePool env.init s with
  | (s', tr, Except.error e) =>
      (s', tr ++ [Event.log (queryErrLog e sql params dur)], Except.error e)
  | (s', tr, Except.ok _) =>
      if env.execOk then
        (s', tr ++ [Event.log (queryOkLog sql params env.rows dur)], Except.ok env.rows)
      else
        (s', tr ++ [Event.log (queryErrLog Err.execFail sql params dur)], Except.error Err.execFail)

/-- Trace predicates used by the claims. -/
def isAcquire : Event → Bool
  | Event.acquire => true
  | _ => false

def isRelease : Event → Bool
  | Event.release => true
  | _ => false

def isCreate : Event → Bool
  | Event.create _ => true
  | _ => false

def isLog : Event → Bool
  | Event.log _ => true
  | _ => false

/-- The query-outcome log entries of `query` (its own success/failure log). -/
def isQueryOutcomeLog : Event → Bool
  | Event.log e => e.msg == "Consulta SQL ejecutada" || e.msg == "Error en consulta SQL"
  | _ => false

/-- The transaction committed: a successful commit appears in the trace. -/
def committed (tr : List Event) : Prop := Event.commit true ∈ tr

/-- A rollback was attempted (successfully or not). -/
def rollbackAttempted (tr : List Event) : Prop :=
  Event.rollback true ∈ tr ∨ Event.rollback false ∈ tr

/-- Pool initialization succeeds: either a pool already exists or every
initialization step succeeds. -/
def initOk (env : InitEnv) (s : PoolState) : Bool :=
  s.pool.isSome || (env.createOk && env.liveAcquireOk && env.pingOk)

/-- Connection acquisition succeeds: initialization plus the lease succeed. -/
def getOk (env : GetEnv) (s : PoolState) : Bool :=
  initOk env.init s && env.leaseOk

theorem getConnection_no_tx_events (env : GetEnv) (s : PoolState) :
    (∀ b, Event.commit b ∉ (getConnection env s).2.1)
    ∧ (∀ b, Event.rollback b ∉ (getConnection env s).2.1)
    ∧ Event.body ∉ (getConnection env s).2.1 := by
  obtain ⟨⟨c, a, p⟩, l⟩ := env
  obtain ⟨po, nid⟩ := s
  cases po <;> cases c <;> cases a <;> cases p <;> cases l <;>
    simp [getConnection, initializePool]

theorem getConnection_ok_iff (env : GetEnv) (s : PoolState) :
    ((getConnection env s).2.2 = Except.ok ()) ↔ getOk env s = true := by
  obtain ⟨⟨c, a, p⟩, l⟩ := env
  obtain ⟨po, nid⟩ := s
  cases po <;> cases c <;> cases a <;> cases p <;> cases l <;>
    simp [getConnection, initializePool, getOk, initOk]

/-- Claim C1: the trace of a transaction run contains a successful commit
exactly when the unit of work ran and completed without error and the commit
step itself succeeds; and whenever a connection was acquired and the run
ends in an error, a rollback was attempted. -/
theorem transaction_commits_iff (env : TxEnv) (dur : Nat) (s : PoolState) :
    (committed (transaction env dur s).2.1
      ↔ (Event.body ∈ (transaction env dur s).2.1 ∧ env.bodyOk = true ∧ env.commitOk = true))
    ∧ (getOk env.get s = true →
        ∀ e, (transaction env dur s).2.2 = Except.error e →
          rollbackAttempted (transaction env dur s).2.1) := by
  obtain ⟨g, bg, bd, cm, rb⟩ := env
  rcases hg : getConnection g s with ⟨s1, tr1, r1⟩
  have hno := getConnection_no_tx_events g s
  rw [hg] at hno
  obtain ⟨hnc, hnr, hnb⟩ := hno
  cases r1 with
  | error e =>
      have hne : getOk g s ≠ true := by
        intro ht
        have hok := (getConnection_ok_iff g s).mpr ht
        rw [hg] at hok
        simp at hok
      constructor
      · constructor
        · intro h
          simp only [transaction, hg] at h
          exact absurd h (hnc true)
        · rintro ⟨h, -, -⟩
          simp only [transaction, hg] at h
          exact absurd h hnb
      · intro hgt
        exact absurd hgt hne
  | ok u =>
      cases u
      cases bg <;> cases bd <;> cases cm <;> cases rb <;>
        simp_all [transaction, hg, rollbackEvents, committed, rollbackAttempted]

/-- Claim C10: when connection acquisition fails, transaction adds nothing to
the run of getConnection: the unit of work is never invoked, no rollback is
attempted, no release is performed beyond those internal to the acquisition
attempt, and the acquisition error propagates unchanged. -/
theorem transaction_acquire_failure_propagates (env : TxEnv) (dur : Nat) (s : PoolState)
    (h : getOk env.get s = false) :
    transaction env dur s = getConnection env.get s
    ∧ Event.body ∉ (transaction env dur s).2.1
    ∧ (∀ b, Event.rollback b ∉ (transaction env dur s).2.1)
    ∧ List.countP isRelease (transaction env dur s).2.1
        = List.countP isRelease (getConnection env.get s).2.1
    ∧ (∃ e, (transaction env dur s).2.2 = Except.error e) := by
  rcases hg : getConnection env.get s with ⟨s1, tr1, r1⟩
  have hno := getConnection_no_tx_events env.get s
  rw [hg] at hno
  obtain ⟨hnc, hnr, hnb⟩ := hno
  cases r1 with
  | ok u =>
      have hok : (getConnection env.get s).2.2 = Except.ok () := by
        rw [hg]
      have := (getConnection_ok_iff env.get s).mp hok
      rw [h] at this
      cases this
  | error e =>
      have htx : transaction env dur s = (s1, tr1, Except.error e) := by
        simp [transaction, hg]
      refine ⟨by rw [htx], ?_, ?_, ?_, ?_⟩
      · rw [htx]
        exact hnb
      · intro b
        rw [htx]
        exact hnr b
      · rw [htx]
      · exact ⟨e, by rw [htx]⟩

/-- Claim C5: when the unit of work or the commit fails and the rollback also
fails, the trace holds an error-level entry carrying the rollback failure in
`err` and the original error in `originalError`, the connection is released,
and the original error — never the rollback error — is rethrown. -/
theorem transaction_rollback_failure_reports_original (env : TxEnv) (dur : Nat) (s : PoolState)
    (hget : getOk env.get s = true) (hbegin : env.beginOk = true) (hrb : env.rollbackOk = false)
    (hfail : (env.bodyOk && env.commitOk) = false) :
    Event.log ⟨Level.error, "Error al revertir transacción", some Err.rollbackFail,
        some (if env.bodyOk then Err.commitFail else Err.bodyFail), none, none, none, some dur⟩
      ∈ (transaction env dur s).2.1
    ∧ Event.release ∈ (transaction env dur s).2.1
    ∧ (transaction env dur s).2.2
        = Except.error (if env.bodyOk then Err.commitFail else Err.bodyFail) := by
  obtain ⟨g, bg, bd, cm, rb⟩ := env
  rcases hg : getConnection g s with ⟨s1, tr1, r1⟩
  cases r1 with
  | error e =>
      have hok := (getConnection_ok_iff g s).mpr hget
      rw [hg] at hok
      simp at hok
  | ok u =>
      cases u
      simp only at hbegin hrb hfail
      subst hbegin hrb
      cases bd <;> cases cm <;>
        simp_all [transaction, hg, rollbackEvents]

theorem getConnection_counts (env : GetEnv) (s : PoolState) (hping : env.init.pingOk = true) :
    ((getConnection env s).2.2 = Except.ok ()
        → List.countP isAcquire (getConnection env s).2.1
          = List.countP isRelease (getConnection env s).2.1 + 1)
    ∧ (∀ e, (getConnection env s).2.2 = Except.error e
        → List.countP isAcquire (getConnection env s).2.1
          = List.countP isRelease (getConnection env s).2.1) := by
  obtain ⟨⟨c, a, p⟩, l⟩ := env
  simp only at hping
  subst hping
  obtain ⟨po, nid⟩ := s
  cases po <;> cases c <;> cases a <;> cases l <;>
    simp [getConnection, initializePool, isAcquire, isRelease,
      List.countP_cons, List.countP_nil]

/-- Claim C2 (counterexample): in initializePool, when the liveness ping
fails, the liveness-check connection is acquired but never released — the
source has no try/finally around the acquire/ping/release sequence. -/
theorem liveness_ping_failure_leaks_connection :
    List.countP isAcquire (initializePool ⟨true, true, false⟩ ⟨none, 0⟩).2.1 = 1
    ∧ List.countP isRelease (initializePool ⟨true, true, false⟩ ⟨none, 0⟩).2.1 = 0
    ∧ (initializePool ⟨true, true, false⟩ ⟨none, 0⟩).2.2 = Except.error Err.pingFail := by
  refine ⟨rfl, rfl, rfl⟩

/-- Claim C2 (amended): provided the liveness ping does not fail, every run
of transaction releases exactly as many connections as it acquires — the
connection leased inside transaction is released exactly once on every exit
path; a failing liveness ping, however, leaks the liveness connection. -/
theorem transaction_release_balanced (env : TxEnv) (dur : Nat) (s : PoolState)
    (hping : env.get.init.pingOk = true) :
    List.countP isRelease (transaction env dur s).2.1
      = List.countP isAcquire (transaction env dur s).2.1 := by
  obtain ⟨g, bg, bd, cm, rb⟩ := env
  have hc := getConnection_counts g s hping
  rcases hg : getConnection g s with ⟨s1, tr1, r1⟩
  rw [hg] at hc
  cases r1 with
  | error e =>
      have hb := hc.2 e rfl
      simp only at hb
      have htx : transaction ⟨g, bg, bd, cm, rb⟩ dur s = (s1, tr1, Except.error e) := by
        simp [transaction, hg]
      rw [htx]
      simp only
      omega
  | ok u =>
      cases u
      have hb := hc.1 rfl
      simp only at hb
      cases bg <;> cases bd <;> cases cm <;> cases rb <;>
        simp [transaction, hg, rollbackEvents, List.countP_append, isRelease, isAcquire,
          List.countP_cons, List.countP_nil] <;>
        omega

/-- Claim C3: once a call to initializePool has succeeded with pool p, every
later call (no close intervening) returns the very same pool reference and
the unchanged state, emits only the reuse debug entry, and neither constructs
a pool nor opens a connection. -/
theorem initializePool_idempotent (env env2 : InitEnv) (s s' : PoolState) (tr : List Event) (p : Nat)
    (h : initializePool env s = (s', tr, Except.ok p)) :
    initializePool env2 s' =
      (s', [Event.log (plainLog Level.debug "Reutilizando pool de conexiones existente")], Except.ok p)
    ∧ List.countP isCreate
        [Event.log (plainLog Level.debug "Reutilizando pool de conexiones existente")] = 0
    ∧ List.countP isAcquire
        [Event.log (plainLog Level.debug "Reutilizando pool de conexiones existente")] = 0 := by
  have hp : s'.pool = some p := by
    obtain ⟨po, nid⟩ := s
    obtain ⟨c, a, pg⟩ := env
    cases po <;> cases c <;> cases a <;> cases pg <;> simp [initializePool] at h <;>
      (obtain ⟨hs, -, hpv⟩ := h; subst hpv; rw [← hs])
  obtain ⟨po', nid'⟩ := s'
  simp only at hp
  subst hp
  exact ⟨rfl, rfl, rfl⟩

/-- Claim C4: every failing run of initializePool leaves the pool reference
absent (never a half-valid pool), and a later call whose steps all succeed
constructs a genuinely new pool from scratch and returns it. -/
theorem initializePool_failure_resets (env : InitEnv) (s s' : PoolState) (tr : List Event) (e : Err)
    (h : initializePool env s = (s', tr, Except.error e)) :
    s'.pool = none
    ∧ ∀ env2 : InitEnv, env2.createOk = true → env2.liveAcquireOk = true → env2.pingOk = true →
        ∃ p tr2, initializePool env2 s' = (⟨some p, p + 1⟩, tr2, Except.ok p)
          ∧ Event.create p ∈ tr2 := by
  have hp : s'.pool = none := by
    obtain ⟨po, nid⟩ := s
    obtain ⟨c, a, pg⟩ := env
    cases po <;> cases c <;> cases a <;> cases pg <;> simp [initializePool] at h <;>
      (obtain ⟨hs, -, -⟩ := h; rw [← hs])
  refine ⟨hp, ?_⟩
  intro env2 h1 h2 h3
  obtain ⟨c2, a2, p2⟩ := env2
  simp only at h1 h2 h3
  subst h1 h2 h3
  obtain ⟨po', nid'⟩ := s'
  simp only at hp
  subst hp
  refine ⟨nid',
    [Event.log (plainLog Level.info "Inicializando nuevo pool de conexiones MySQL"),
      Event.create nid', Event.acquire, Event.ping, Event.release,
      Event.log (plainLog Level.info "Pool de conexiones MySQL inicializado correctamente")],
    rfl, ?_⟩
  simp

theorem initializePool_no_outcome_log (env : InitEnv) (s : PoolState) :
    List.countP isQueryOutcomeLog (initializePool env s).2.1 = 0 := by
  obtain ⟨c, a, pg⟩ := env
  obtain ⟨po, nid⟩ := s
  cases po <;> cases c <;> cases a <;> cases pg <;>
    simp [initializePool, isQueryOutcomeLog, plainLog, errLog,
      List.countP_cons, List.countP_nil]

/-- Claim C9 (counterexample): with the pool already present, a successful
query emits two diagnostic log entries — the pool-reuse debug entry from
initializePool and its own outcome entry — not exactly one. -/
theorem query_two_log_entries :
    List.countP isLog
      (query ⟨⟨true, true, true⟩, true, 0⟩ "SELECT 1" (JsValue.vArr []) 7 ⟨some 0, 1⟩).2.1 = 2
    ∧ List.countP isLog
        (query ⟨⟨true, true, true⟩, true, 0⟩ "SELECT 1" (JsValue.vArr []) 7 ⟨some 0, 1⟩).2.1 ≠ 1 := by
  refine ⟨rfl, by decide⟩

/-- Claim C9 (amended): every call to query emits exactly one query-outcome
log entry, appended after the pool-initialization entries: on success the
debug entry with sanitized sql, sanitized params, row count and duration; on
failure the error-level entry with the same sanitized fields plus the error. -/
theorem query_exactly_one_outcome_log (env : QueryEnv) (sql : String) (params : JsValue)
    (dur : Nat) (s : PoolState) :
    List.countP isQueryOutcomeLog (query env sql params dur s).2.1 = 1
    ∧ (initOk env.init s = true → env.execOk = true →
        (query env sql params dur s).2.1
          = (initializePool env.init s).2.1 ++ [Event.log (queryOkLog sql params env.rows dur)])
    ∧ (∀ e, (query env sql params dur s).2.2 = Except.error e →
        (query env sql params dur s).2.1
          = (initializePool env.init s).2.1 ++ [Event.log (queryErrLog e sql params dur)]) := by
  obtain ⟨ienv, ex, rows⟩ := env
  have h0 := initializePool_no_outcome_log ienv s
  have hiff : ((initializePool ienv s).2.2.isOk) = initOk ienv s := by
    obtain ⟨c, a, pg⟩ := ienv
    obtain ⟨po, nid⟩ := s
    cases po <;> cases c <;> cases a <;> cases pg <;>
      simp [initializePool, initOk, Except.isOk, Except.toBool]
  rcases hi : initializePool ienv s with ⟨s1, tr1, r1⟩
  rw [hi] at h0 hiff
  simp only at h0 hiff
  cases r1 with
  | error e =>
      refine ⟨?_, ?_, ?_⟩
      · simp [query, hi, List.countP_append, h0, List.countP_cons, List.countP_nil,
          isQueryOutcomeLog, queryErrLog]
      · intro hik
        rw [← hiff] at hik
        simp [Except.isOk, Except.toBool] at hik
      · intro e2 he2
        simp [query, hi] at he2 ⊢
        rw [he2]
  | ok pid =>
      cases ex
      · refine ⟨?_, ?_, ?_⟩
        · simp [query, hi, List.countP_append, h0, List.countP_cons, List.countP_nil,
            isQueryOutcomeLog, queryErrLog]
        · intro _ hex
          simp at hex
        · intro e2 he2
          simp [query, hi] at he2 ⊢
          rw [← he2]
      · refine ⟨?_, ?_, ?_⟩
        · simp [query, hi, List.countP_append, h0, List.countP_cons, List.countP_nil,
            isQueryOutcomeLog, queryOkLog]
        · intro _ _
          simp [query, hi]
        · intro e2 he2
          simp [query, hi] at he2

/-- Witness for C1: with an existing pool and a failing commit, the run is
not committed and a rollback is attempted. -/
theorem transaction_commits_iff_witness :
    rollbackAttempted
      (transaction ⟨⟨⟨true, true, true⟩, true⟩, true, true, false, true⟩ 5 ⟨some 0, 1⟩).2.1
    ∧ ¬ committed
        (transaction ⟨⟨⟨true, true, true⟩, true⟩, true, true, false, true⟩ 5 ⟨some 0, 1⟩).2.1 := by
  have h := transaction_commits_iff ⟨⟨⟨true, true, true⟩, true⟩, true, true, false, true⟩ 5 ⟨some 0, 1⟩
  refine ⟨h.2 (by rfl) Err.commitFail (by rfl), ?_⟩
  intro hc
  exact Bool.noConfusion (h.1.mp hc).2.2

/-- Witness for C2 (amended): on a fresh pool with a failing unit of work and
a failing rollback, releases still balance acquisitions. -/
theorem transaction_release_balanced_witness :
    List.countP isRelease
      (transaction ⟨⟨⟨true, true, true⟩, true⟩, true, false, true, false⟩ 3 ⟨none, 0⟩).2.1
    = List.countP isAcquire
        (transaction ⟨⟨⟨true, true, true⟩, true⟩, true, false, true, false⟩ 3 ⟨none, 0⟩).2.1 :=
  transaction_release_balanced ⟨⟨⟨true, true, true⟩, true⟩, true, false, true, false⟩ 3 ⟨none, 0⟩
    (by rfl)

/-- Witness for C3: after one successful initialization from an empty state,
a second call with every step failing still returns the same pool. -/
theorem initializePool_idempotent_witness :
    initializePool ⟨false, false, false⟩ ⟨some 0, 1⟩ =
      (⟨some 0, 1⟩, [Event.log (plainLog Level.debug "Reutilizando pool de conexiones existente")],
        Except.ok 0)
    ∧ List.countP isCreate
        [Event.log (plainLog Level.debug "Reutilizando pool de conexiones existente")] = 0
    ∧ List.countP isAcquire
        [Event.log (plainLog Level.debug "Reutilizando pool de conexiones existente")] = 0 :=
  initializePool_idempotent ⟨true, true, true⟩ ⟨false, false, false⟩ ⟨none, 0⟩ ⟨some 0, 1⟩
    [Event.log (plainLog Level.info "Inicializando nuevo pool de conexiones MySQL"),
      Event.create 0, Event.acquire, Event.ping, Event.release,
      Event.log (plainLog Level.info "Pool de conexiones MySQL inicializado correctamente")]
    0 (by rfl)

/-- Witness for C4: after a failed construction the pool is absent and a
later all-successful call constructs and installs a fresh pool. -/
theorem initializePool_failure_resets_witness :
    (⟨none, 5⟩ : PoolState).pool = none
    ∧ ∃ p tr2, initializePool ⟨true, true, true⟩ ⟨none, 5⟩ = (⟨some p, p + 1⟩, tr2, Except.ok p)
        ∧ Event.create p ∈ tr2 := by
  have h := initializePool_failure_resets ⟨false, true, true⟩ ⟨none, 5⟩ ⟨none, 5⟩
    [Event.log (plainLog Level.info "Inicializando nuevo pool de conexiones MySQL"),
      Event.log (errLog "Error al inicializar el pool de conexiones MySQL" Err.createFail)]
    Err.createFail (by rfl)
  exact ⟨h.1, h.2 ⟨true, true, true⟩ (by rfl) (by rfl) (by rfl)⟩

/-- Witness for C5: existing pool, failing unit of work, failing rollback —
the error entry records both errors and the body error is rethrown. -/
theorem transaction_rollback_failure_witness :
    Event.log ⟨Level.error, "Error al revertir transacción", some Err.rollbackFail,
        some Err.bodyFail, none, none, none, some 2⟩
      ∈ (transaction ⟨⟨⟨true, true, true⟩, true⟩, true, false, true, false⟩ 2 ⟨some 0, 1⟩).2.1
    ∧ Event.release
        ∈ (transaction ⟨⟨⟨true, true, true⟩, true⟩, true, false, true, false⟩ 2 ⟨some 0, 1⟩).2.1
    ∧ (transaction ⟨⟨⟨true, true, true⟩, true⟩, true, false, true, false⟩ 2 ⟨some 0, 1⟩).2.2
        = Except.error Err.bodyFail :=
  transaction_rollback_failure_reports_original
    ⟨⟨⟨true, true, true⟩, true⟩, true, false, true, false⟩ 2 ⟨some 0, 1⟩
    (by rfl) (by rfl) (by rfl) (by rfl)

/-- Witness for C9 (amended): a successful query on an existing pool emits
one outcome entry, appended after the initialization trace. -/
theorem query_exactly_one_outcome_log_witness :
    List.countP isQueryOutcomeLog
      (query ⟨⟨true, true, true⟩, true, 3⟩ "SELECT 1" JsValue.vNull 4 ⟨some 0, 1⟩).2.1 = 1
    ∧ (query ⟨⟨true, true, true⟩, true, 3⟩ "SELECT 1" JsValue.vNull 4 ⟨some 0, 1⟩).2.1
        = (initializePool ⟨true, true, true⟩ ⟨some 0, 1⟩).2.1
          ++ [Event.log (queryOkLog "SELECT 1" JsValue.vNull 3 4)] := by
  have h := query_exactly_one_outcome_log ⟨⟨true, true, true⟩, true, 3⟩ "SELECT 1" JsValue.vNull
    4 ⟨some 0, 1⟩
  exact ⟨h.1, h.2.1 (by rfl) (by rfl)⟩

/-- Witness for C10: with a failing lease on an existing pool, transaction
returns exactly the getConnection run and never invokes the unit of work. -/
theorem transaction_acquire_failure_witness :
    transaction ⟨⟨⟨true, true, true⟩, false⟩, true, true, true, true⟩ 1 ⟨some 0, 1⟩
      = getConnection ⟨⟨true, true, true⟩, false⟩ ⟨some 0, 1⟩
    ∧ Event.body
        ∉ (transaction ⟨⟨⟨true, true, true⟩, false⟩, true, true, true, true⟩ 1 ⟨some 0, 1⟩).2.1 := by
  have h := transaction_acquire_failure_propagates
    ⟨⟨⟨true, true, true⟩, false⟩, true, true, true, true⟩ 1 ⟨some 0, 1⟩ (by rfl)
  exact ⟨h.1, h.2.1⟩

end Mysql
